import Mathlib

/-!
Shallow embedding of the quickswarm scripts:
  * `scripts/deploy-networks.py`   — declarative Docker-network reconciler
  * `scripts/swarm-addworker.py`   — worker join (config.toml variant)
  * `scripts/swarm-add_worker.py`  — worker join (.env variant)
  * `scripts/utils/loadenv.py`     — environment-file loader

External commands (`subprocess.run` / `subprocess.check_output`) are modelled
by an explicit oracle (`DockerWorld`) saying which invocations succeed, and
every function additionally returns the list of command argument-vectors it
issued, in order.  Python exceptions are modelled with `Except PyError`.
Console output is not modelled except where a function's observable contract
includes it (`get_existing_networks` returns its error message).
-/

/-- Python exceptions that the scripts can raise. -/
inductive PyError where
  | valueError (msg : String)
  | typeError (msg : String)
  | runtimeError (msg : String)
  | nameError (ident : String)
deriving DecidableEq, Repr

/-- One TOML table from the `networks` list of `config.toml`.  Each key may be
absent (`network.get(...)` in Python returns `None` / the supplied default). -/
structure NetworkEntry where
  name : Option String
  driver : Option String
  attachable : Option Bool
deriving DecidableEq, Repr

/-- The parsed `config.toml`, as far as `deploy-networks.py` reads it:
`networks = none` models a TOML file with no `networks` key. -/
structure DeployConfig where
  networks : Option (List NetworkEntry)
deriving DecidableEq, Repr

/-- Oracle for the external Docker CLI: the outcome of `docker network ls`
(`none` = `CalledProcessError`, `some names` = the stripped/split output), and
whether a given `docker network create` invocation succeeds. -/
structure DockerWorld where
  lsResult : Option (List String)
  createOk : String → String → Bool → Bool

/-- One row of the "Network Deployment Results" table (`table.add_row`). -/
structure DeployRow where
  name : String
  status : String
  driver : String
  attachable : String
deriving DecidableEq, Repr

/-- How a run of `main` in `deploy-networks.py` terminates: a process exit
(`sys.exit` or falling off the end of `main`) with the report rows printed,
or an uncaught Python exception whose traceback the interpreter prints (rows
accumulated before the exception are recorded for the statements below). -/
inductive DeployOutcome where
  | exited (code : Nat) (rows : List DeployRow)
  | raised (e : PyError) (rows : List DeployRow)
deriving DecidableEq, Repr

/-- The status the operating system sees: `sys.exit(code)` or a normal return
gives `code`; an uncaught Python exception makes the interpreter print the
traceback and exit with status 1. -/
def DeployOutcome.exitStatus : DeployOutcome → Nat
  | .exited code _ => code
  | .raised _ _ => 1

/-- Argument vector of `docker network ls --format "{{.Name}}"`. -/
def lsCmd : List String :=
  ["docker", "network", "ls", "--format", "\x7b\x7b.Name\x7d\x7d"]

/-- Argument vector of `docker network rm <name>`. -/
def rmCmd (name : String) : List String :=
  ["docker", "network", "rm", name]

/-- Argument vector built by `create_docker_network`: the base command plus
`--driver` when `driver` is truthy (non-empty) and `--attachable` when
`attachable` is truthy. -/
def createArgv (network_name driver : String) (attachable : Bool) : List String :=
  ["docker", "network", "create", "--scope", "swarm", network_name]
    ++ (if driver ≠ "" then ["--driver", driver] else [])
    ++ (if attachable then ["--attachable"] else [])

namespace DeployNetworks

/-- `get_existing_networks` (deploy-networks.py:46-65): on success the list of
names from the `ls` output, on `CalledProcessError` it prints an error message
and returns the empty list.  Result: (console messages, returned list); the
interpolated Python exception text is elided from the message. -/
def get_existing_networks (w : DockerWorld) : List String × List String :=
  match w.lsResult with
  | some names => ([], names)
  | none => (["Error retrieving existing networks"], [])

/-- `create_docker_network` (deploy-networks.py:67-105): builds the command,
runs it, returns `true` on success; on `CalledProcessError` prints the error
and returns `false`.  Result: (commands issued, returned Bool). -/
def create_docker_network (w : DockerWorld) (network_name driver : String)
    (attachable : Bool) : List (List String) × Bool :=
  (([createArgv network_name driver attachable]),
   w.createOk network_name driver attachable)

/-- `remove_docker_network` (deploy-networks.py:107-126): runs
`docker network rm`; returns `true` on success.  In the `except` branch the
f-string references the identifier `name`, which is unbound in that scope
(the parameter is `network_name`), so evaluating it raises `NameError` and
the `return False` line is never reached.  `rmOk` is the oracle for the
subprocess call. -/
def remove_docker_network (rmOk : Bool) (network_name : String) :
    List (List String) × Except PyError Bool :=
  if rmOk then ([rmCmd network_name], .ok true)
  else ([rmCmd network_name], .error (.nameError "name"))

/-- The body of `main`'s `for network in config["networks"]` loop
(deploy-networks.py:165-195) for one entry: read `name`/`driver`/`attachable`
with defaults, delete a colliding existing network (delete failure is only
logged), then create and build the report row.  When the entry has no `name`
key, Python's `None in existing_networks` is `False` (no delete) and
`subprocess.run` inside `create_docker_network` raises `TypeError` on the
`None` element of the argument list, before any command is executed. -/
def processEntry (w : DockerWorld) (existing : List String) (e : NetworkEntry) :
    List (List String) × Except PyError DeployRow :=
  match e.name with
  | none =>
      ([], .error (.typeError "expected str, bytes or os.PathLike object, not NoneType"))
  | some name =>
      let driver := e.driver.getD "overlay"
      let attachable := e.attachable.getD true
      let delCmds := if name ∈ existing then [rmCmd name] else []
      let c := create_docker_network w name driver attachable
      (delCmds ++ c.1,
       .ok ⟨name, if c.2 then "Created" else "Failed", driver,
            if attachable then "Yes" else "No"⟩)

/-- The whole `for` loop of `main`: commands issued, rows added to the table,
and the exception that aborted the loop, if any. -/
def runEntries (w : DockerWorld) (existing : List String) :
    List NetworkEntry → List (List String) × List DeployRow × Option PyError
  | [] => ([], [], none)
  | e :: rest =>
      match processEntry w existing e with
      | (cmds, .error err) => (cmds, [], some err)
      | (cmds, .ok row) =>
          let r := runEntries w existing rest
          (cmds ++ r.1, row :: r.2.1, r.2.2)

/-- `main` (deploy-networks.py:129-199): if the parsed config lacks a
`networks` key, line 145 runs `console.print(..., err=True, style=...)`, but
rich's `Console.print` has no `err` keyword parameter, so that call raises
`TypeError` and the `sys.exit(1)` on line 146 is unreachable — the program
terminates via the uncaught exception, still before any external command.
Otherwise query the existing networks, process every entry, print the table
and finish normally (exit code 0).  Result: (outcome, commands issued). -/
def main (cfg : DeployConfig) (w : DockerWorld) :
    DeployOutcome × List (List String) :=
  match cfg.networks with
  | none => (.raised (.typeError "print() got an unexpected keyword argument err") [], [])
  | some nets =>
      let existing := (get_existing_networks w).2
      match runEntries w existing nets with
      | (cmds, rows, none) => (.exited 0 rows, lsCmd :: cmds)
      | (cmds, rows, some e) => (.raised e rows, lsCmd :: cmds)

end DeployNetworks

/-- The network name of an entry that has one (`namedOf e = n` whenever
`e.name = some n`). -/
def namedOf (e : NetworkEntry) : String := e.name.getD ""

/-- `network.get("driver", "overlay")`. -/
def entryDriver (e : NetworkEntry) : String := e.driver.getD "overlay"

/-- `network.get("attachable", True)`. -/
def entryAttachable (e : NetworkEntry) : Bool := e.attachable.getD true

/-- The commands the reconciler issues for one named entry: a delete exactly
when the name collides with an existing network, immediately followed by the
create. -/
def expectedTrace (existing : List String) (e : NetworkEntry) : List (List String) :=
  (if namedOf e ∈ existing then [rmCmd (namedOf e)] else [])
    ++ [createArgv (namedOf e) (entryDriver e) (entryAttachable e)]

/-- The report row the reconciler records for one named entry. -/
def expectedRow (w : DockerWorld) (e : NetworkEntry) : DeployRow :=
  ⟨namedOf e,
   if w.createOk (namedOf e) (entryDriver e) (entryAttachable e) then "Created" else "Failed",
   entryDriver e,
   if entryAttachable e then "Yes" else "No"⟩

namespace DeployNetworks

theorem processEntry_named (w : DockerWorld) (existing : List String)
    (e : NetworkEntry) (n : String) (hn : e.name = some n) :
    processEntry w existing e = (expectedTrace existing e, .ok (expectedRow w e)) := by
  simp [processEntry, hn, create_docker_network, expectedTrace, expectedRow,
    namedOf, entryDriver, entryAttachable]

theorem runEntries_all_named (w : DockerWorld) (existing : List String)
    (nets : List NetworkEntry) (hnames : ∀ e ∈ nets, e.name ≠ none) :
    runEntries w existing nets =
      (nets.flatMap (expectedTrace existing), nets.map (expectedRow w), none) := by
  induction nets with
  | nil => simp [runEntries]
  | cons e rest ih =>
      obtain ⟨n, hn⟩ := Option.ne_none_iff_exists'.mp (hnames e (List.mem_cons_self e rest))
      rw [runEntries, processEntry_named w existing e n hn,
        ih (fun x hx => hnames x (List.mem_cons_of_mem e hx))]
      simp

theorem runEntries_stops_at_unnamed (w : DockerWorld) (existing : List String)
    (pre post : List NetworkEntry) (e : NetworkEntry) (he : e.name = none)
    (hpre : ∀ x ∈ pre, x.name ≠ none) :
    runEntries w existing (pre ++ e :: post) =
      (pre.flatMap (expectedTrace existing), pre.map (expectedRow w),
       some (.typeError "expected str, bytes or os.PathLike object, not NoneType")) := by
  induction pre with
  | nil => simp [runEntries, processEntry, he]
  | cons x rest ih =>
      obtain ⟨n, hn⟩ := Option.ne_none_iff_exists'.mp (hpre x (List.mem_cons_self x rest))
      rw [List.cons_append, runEntries, processEntry_named w existing x n hn,
        ih (fun y hy => hpre y (List.mem_cons_of_mem x hy))]
      simp

end DeployNetworks

/-- Argument vector of the swarm-join command built by both worker-join
variants: `["docker", "swarm", "join", f"--token={token}", f"{manager_ip}:2377"]`. -/
def joinCmd (token manager_ip : String) : List String :=
  ["docker", "swarm", "join", "--token=" ++ token, manager_ip ++ ":2377"]

namespace JoinCfg

/-- `add_worker` (swarm-addworker.py:49-87): raise `ValueError` when
`manager_ip` or `token` is falsy (empty), before any external command; else
run the join command, raising `RuntimeError` when it fails (the interpolated
stderr is elided from the message).  `joinOk` is the oracle for the
subprocess call.  Result: (commands issued, outcome). -/
def add_worker (joinOk : Bool) (manager_ip token : String) :
    List (List String) × Except PyError Unit :=
  if manager_ip = "" ∨ token = "" then
    ([], .error (.valueError "Manager IP and token are required"))
  else if joinOk then
    ([joinCmd token manager_ip], .ok ())
  else
    ([joinCmd token manager_ip], .error (.runtimeError "Failed to add worker"))

end JoinCfg

/-- Process environment: a finite map from variable names to values, as an
association list with last-write-wins update. -/
abbrev Env := List (String × String)

/-- `os.getenv(k)`: `some` the value when set, else `none`. -/
def envGet (env : Env) (k : String) : Option String :=
  match env with
  | [] => none
  | (k', v) :: rest => if k' = k then some v else envGet rest k

/-- Whitespace for Python's `str.strip()`: space, tab, newline, carriage
return, vertical tab, form feed. -/
def isSpaceChar (c : Char) : Bool :=
  c = ' ' || c = '\t' || c = '\n' || c = '\r' || c = '\x0b' || c = '\x0c'

def dropLeadingSpace : List Char → List Char
  | [] => []
  | c :: cs => if isSpaceChar c then dropLeadingSpace cs else c :: cs

/-- Remove whitespace from both ends of a character list. -/
def stripChars (cs : List Char) : List Char :=
  (dropLeadingSpace (dropLeadingSpace cs).reverse).reverse

/-- Python's `s.strip()`. -/
def pyStrip (s : String) : String := ⟨stripChars s.data⟩

/-- Python's `s.startswith("#")`. -/
def pyStartsWithHash (s : String) : Bool :=
  match s.data with
  | [] => false
  | c :: _ => c = '#'

/-- Split a character list at its first `=`. -/
def splitFirstEq : List Char → Option (List Char × List Char)
  | [] => none
  | c :: cs =>
      if c = '=' then some ([], cs)
      else
        match splitFirstEq cs with
        | none => none
        | some kv => some (c :: kv.1, kv.2)

/-- Python's `s.split("=", 1)` when it yields two parts: the text before the
first `=` and everything after it; `none` when `s` contains no `=` (in which
case the two-name unpacking in `load_env` raises `ValueError`). -/
def splitOnceEq (s : String) : Option (String × String) :=
  match splitFirstEq s.data with
  | none => none
  | some kv => some (⟨kv.1⟩, ⟨kv.2⟩)

/-- `load_env` (utils/loadenv.py:2-14), with the file contents passed in as
its list of lines (trailing newlines stripped; stripping them changes neither
`line.strip()` nor `line.startswith("#")`) and `os.environ` passed
explicitly.  Each line that is non-blank after stripping and does not start
with `#` is split at its first `=` (a processed line with no `=` raises
`ValueError` from the tuple unpacking).  The module `loadenv.py` contains no
`import os`, so the assignment `os.environ[key] = value` on line 14 then
raises `NameError` on the unbound identifier `os`: the first processed
`key=value` line aborts the call, and no variable is ever set.  Only a file
whose every line is blank or starts with `#` completes, leaving the
environment unchanged. -/
def load_env (env : Env) : List String → Except PyError Env
  | [] => .ok env
  | line :: rest =>
      if pyStrip line ≠ "" ∧ ¬ pyStartsWithHash line then
        match splitOnceEq (pyStrip line) with
        | some _ => .error (.nameError "os")
        | none => .error (.valueError "not enough values to unpack (expected 2, got 1)")
      else
        load_env env rest

namespace JoinEnv

/-- `add_worker` (swarm-add_worker.py:9-31): raise `ValueError` when any of
the three arguments is falsy (empty), before any external command; else run
the join command, raising `RuntimeError` when it fails. -/
def add_worker (joinOk : Bool) (manager_ip token new_worker_ip : String) :
    List (List String) × Except PyError Unit :=
  if manager_ip = "" then
    ([], .error (.valueError "Manager IP is required"))
  else if token = "" then
    ([], .error (.valueError "Token is required"))
  else if new_worker_ip = "" then
    ([], .error (.valueError "New worker IP is required"))
  else if joinOk then
    ([joinCmd token manager_ip], .ok ())
  else
    ([joinCmd token manager_ip], .error (.runtimeError "Failed to add worker"))

/-- `main` (swarm-add_worker.py:34-60), with the `.env` file's lines, the
initial `os.environ`, and the interactively entered worker IP as inputs (the
file-existence check is modelled away by supplying the lines): load the
environment file, read `MANAGER_IP` and `TOKEN_WORKER` (`os.getenv` yields
`None` when unset, which like `""` is falsy), then call `add_worker`. -/
def main (fileLines : List String) (env0 : Env) (new_worker_ip : String)
    (joinOk : Bool) : List (List String) × Except PyError Unit :=
  match load_env env0 fileLines with
  | .error e => ([], .error e)
  | .ok env =>
      let manager_ip := (envGet env "MANAGER_IP").getD ""
      let token := (envGet env "TOKEN_WORKER").getD ""
      if manager_ip = "" then
        ([], .error (.valueError "MANAGER_IP is not set in the environment"))
      else if token = "" then
        ([], .error (.valueError "TOKEN_WORKER is not set in the environment"))
      else
        add_worker joinOk manager_ip token new_worker_ip

end JoinEnv

/-- Claim C1: for every configuration that parses but has no `networks` key,
`main` in deploy-networks.py reports an error and the process exits with the
non-zero status 1, before the existing-networks query or any network command
is issued (the command trace is empty).  The reported error is not the
intended red message: line 145 passes `err=True` to rich's `Console.print`,
which rejects it with `TypeError`, so the program terminates through that
uncaught exception (traceback printed, interpreter status 1) and the
`sys.exit(1)` on line 146 is never reached. -/
theorem deploy_missing_networks_key_exits_nonzero
    (cfg : DeployConfig) (w : DockerWorld) (h : cfg.networks = none) :
    (DeployNetworks.main cfg w).1 =
      DeployOutcome.raised
        (.typeError "print() got an unexpected keyword argument err") [] ∧
    (DeployNetworks.main cfg w).1.exitStatus = 1 ∧
    (DeployNetworks.main cfg w).2 = [] := by
  simp [DeployNetworks.main, h, DeployOutcome.exitStatus]

/-- Claim C3: for every declared entry (all carrying a `name`), the command
trace of `main` is the `ls` query followed, entry by entry in configuration
order, by a delete exactly when the entry's name is among the existing
networks — that delete immediately preceding the entry's create — and by the
create alone otherwise. -/
theorem deploy_delete_iff_existing
    (cfg : DeployConfig) (w : DockerWorld) (nets : List NetworkEntry)
    (hcfg : cfg.networks = some nets)
    (hnames : ∀ e ∈ nets, e.name ≠ none) :
    (DeployNetworks.main cfg w).2 =
      lsCmd :: nets.flatMap (fun e =>
        (if namedOf e ∈ (DeployNetworks.get_existing_networks w).2
         then [rmCmd (namedOf e)] else [])
        ++ [createArgv (namedOf e) (entryDriver e) (entryAttachable e)]) := by
  have hrun := DeployNetworks.runEntries_all_named w
    (DeployNetworks.get_existing_networks w).2 nets hnames
  have hfun : expectedTrace (DeployNetworks.get_existing_networks w).2 = fun e =>
      (if namedOf e ∈ (DeployNetworks.get_existing_networks w).2
       then [rmCmd (namedOf e)] else [])
      ++ [createArgv (namedOf e) (entryDriver e) (entryAttachable e)] := by
    funext e
    rfl
  rw [hfun] at hrun
  simp [DeployNetworks.main, hcfg, hrun]

/-- Claim C4: for every entry whose create command fails, `main` records a
report row with status `Failed` for that entry, still produces one row per
entry (the batch is not aborted), and finishes normally with exit status 0. -/
theorem deploy_failed_create_reports_failed_exit_zero
    (cfg : DeployConfig) (w : DockerWorld) (nets : List NetworkEntry) (i : Nat)
    (hcfg : cfg.networks = some nets)
    (hnames : ∀ e ∈ nets, e.name ≠ none)
    (hi : i < nets.length)
    (hfail : (DeployNetworks.create_docker_network w (namedOf nets[i])
        (entryDriver nets[i]) (entryAttachable nets[i])).2 = false) :
    ∃ rows, (DeployNetworks.main cfg w).1 = DeployOutcome.exited 0 rows ∧
      rows.length = nets.length ∧
      rows[i]? = some (expectedRow w nets[i]) ∧
      (expectedRow w nets[i]).status = "Failed" := by
  simp only [DeployNetworks.create_docker_network] at hfail
  have hrun := DeployNetworks.runEntries_all_named w
    (DeployNetworks.get_existing_networks w).2 nets hnames
  refine ⟨nets.map (expectedRow w), ?_, by simp, ?_, ?_⟩
  · simp [DeployNetworks.main, hcfg, hrun]
  · rw [List.getElem?_map, List.getElem?_eq_getElem hi]
    rfl
  · simp [expectedRow, hfail]

/-- Claim C7: for every entry with a `name` but no `driver` and no
`attachable` key, the loop body uses driver `"overlay"` and
attachable `true`: the create command carries `--driver overlay` and
`--attachable`, and the report row shows driver `overlay`, attachable
`Yes`. -/
theorem deploy_defaults_overlay_attachable
    (w : DockerWorld) (existing : List String) (e : NetworkEntry) (n : String)
    (hn : e.name = some n) (hd : e.driver = none) (ha : e.attachable = none) :
    entryDriver e = "overlay" ∧ entryAttachable e = true ∧
    DeployNetworks.processEntry w existing e =
      ((if n ∈ existing then [rmCmd n] else []) ++
        [["docker", "network", "create", "--scope", "swarm", n,
          "--driver", "overlay", "--attachable"]],
       .ok ⟨n, if w.createOk n "overlay" true then "Created" else "Failed",
            "overlay", "Yes"⟩) := by
  have hov : ("overlay" : String) ≠ "" := by decide
  refine ⟨by simp [entryDriver, hd], by simp [entryAttachable, ha], ?_⟩
  rw [DeployNetworks.processEntry_named w existing e n hn]
  simp [expectedTrace, expectedRow, namedOf, entryDriver, entryAttachable,
    hn, hd, ha, createArgv, hov]

/-- Claim C8: for every run in which the `docker network ls` query fails,
`get_existing_networks` prints an error message and returns the empty list,
and `main`'s command trace is the query followed by exactly one create per
declared entry, with no delete anywhere. -/
theorem deploy_ls_failure_treated_empty
    (cfg : DeployConfig) (w : DockerWorld) (nets : List NetworkEntry)
    (hcfg : cfg.networks = some nets)
    (hls : w.lsResult = none)
    (hnames : ∀ e ∈ nets, e.name ≠ none) :
    DeployNetworks.get_existing_networks w =
      (["Error retrieving existing networks"], []) ∧
    (DeployNetworks.main cfg w).2 =
      lsCmd :: nets.flatMap (fun e =>
        [createArgv (namedOf e) (entryDriver e) (entryAttachable e)]) := by
  have hge : DeployNetworks.get_existing_networks w =
      (["Error retrieving existing networks"], []) := by
    simp [DeployNetworks.get_existing_networks, hls]
  have hrun := DeployNetworks.runEntries_all_named w
    (DeployNetworks.get_existing_networks w).2 nets hnames
  rw [hge] at hrun
  have hfun : expectedTrace ([] : List String) = fun e =>
      [createArgv (namedOf e) (entryDriver e) (entryAttachable e)] := by
    funext e
    simp [expectedTrace]
  rw [hfun] at hrun
  refine ⟨hge, ?_⟩
  simp [DeployNetworks.main, hcfg, hge, hrun]

/-- Claim C9: for every input on which the removal command fails,
`remove_docker_network` raises `NameError` on the unbound identifier `name`
in its error branch, and in particular does not return `False`. -/
theorem remove_docker_network_raises_on_failure (network_name : String) :
    DeployNetworks.remove_docker_network false network_name =
      ([rmCmd network_name], .error (.nameError "name")) ∧
    (DeployNetworks.remove_docker_network false network_name).2 ≠ .ok false := by
  exact ⟨rfl, by simp [DeployNetworks.remove_docker_network]⟩

/-- Claim C10: for every configuration whose `networks` list has an entry
with no `name` key, `main` processes the earlier (named) entries normally and
then raises `TypeError` out of the create invocation for that entry: no row
is recorded for it or any later entry, and no further command is issued. -/
theorem deploy_missing_name_aborts_batch
    (w : DockerWorld) (pre post : List NetworkEntry) (e : NetworkEntry)
    (he : e.name = none) (hpre : ∀ x ∈ pre, x.name ≠ none) :
    DeployNetworks.main ⟨some (pre ++ e :: post)⟩ w =
      (DeployOutcome.raised
        (.typeError "expected str, bytes or os.PathLike object, not NoneType")
        (pre.map (expectedRow w)),
       lsCmd :: pre.flatMap (expectedTrace (DeployNetworks.get_existing_networks w).2)) := by
  have hrun := DeployNetworks.runEntries_stops_at_unnamed w
    (DeployNetworks.get_existing_networks w).2 pre post e he hpre
  simp [DeployNetworks.main, hrun]

/-- Claim C5: for every successful worker-join run with non-empty manager IP
and token (and, in the interactive variant, non-empty worker IP), both
variants issue exactly one join command, containing the token and the
manager address formatted as `ip:2377`. -/
theorem join_command_formats_manager_address (ip tok wip : String)
    (hip : ip ≠ "") (htok : tok ≠ "") (hwip : wip ≠ "") :
    JoinCfg.add_worker true ip tok =
      ([["docker", "swarm", "join", "--token=" ++ tok, ip ++ ":2377"]], .ok ()) ∧
    JoinEnv.add_worker true ip tok wip =
      ([["docker", "swarm", "join", "--token=" ++ tok, ip ++ ":2377"]], .ok ()) := by
  constructor
  · simp [JoinCfg.add_worker, hip, htok, joinCmd]
  · simp [JoinEnv.add_worker, hip, htok, hwip, joinCmd]

/-- Claim C6: for every worker-join invocation with an empty manager IP or an
empty token, both variants raise `ValueError` with a descriptive message and
issue no external command at all. -/
theorem join_empty_values_fail_before_command (ip tok wip : String) (joinOk : Bool)
    (h : ip = "" ∨ tok = "") :
    ((JoinCfg.add_worker joinOk ip tok).1 = [] ∧
      ∃ m, (JoinCfg.add_worker joinOk ip tok).2 = Except.error (.valueError m)) ∧
    ((JoinEnv.add_worker joinOk ip tok wip).1 = [] ∧
      ∃ m, (JoinEnv.add_worker joinOk ip tok wip).2 = Except.error (.valueError m)) := by
  have hcfg : ip = "" ∨ tok = "" → JoinCfg.add_worker joinOk ip tok =
      ([], .error (.valueError "Manager IP and token are required")) := by
    intro hor
    simp [JoinCfg.add_worker, hor]
  rcases h with h | h
  · refine ⟨?_, ?_⟩
    · rw [hcfg (Or.inl h)]
      exact ⟨rfl, _, rfl⟩
    · subst h
      simp [JoinEnv.add_worker]
  · refine ⟨?_, ?_⟩
    · rw [hcfg (Or.inr h)]
      exact ⟨rfl, _, rfl⟩
    · subst h
      by_cases hip : ip = "" <;> simp [JoinEnv.add_worker, hip]

/-- Claim C2 (code bug): the claim — and the docstring of `load_env` itself —
says the file's `MANAGER_IP`/`TOKEN_WORKER` lines are stored in the OS
environment so that the join command uses them; but `loadenv.py` never
imports `os`, so on the spec's example file (`MANAGER_IP=10.0.0.5` and
`TOKEN_WORKER=SWMTKN-1-abc`, here with a comment line and a blank line
between them) `load_env` raises `NameError` at its first `key=value` line,
sets neither variable, and `main` of swarm-add_worker.py propagates the
exception without issuing any command; the join command is never
constructed.  A file consisting only of comment and blank lines is the only
kind that completes, and it sets nothing. -/
theorem load_env_missing_os_import_raises :
    load_env [] ["MANAGER_IP=10.0.0.5", "# comment", "", "TOKEN_WORKER=SWMTKN-1-abc"] =
      .error (.nameError "os") ∧
    JoinEnv.main ["MANAGER_IP=10.0.0.5", "# comment", "", "TOKEN_WORKER=SWMTKN-1-abc"]
        [] "10.0.0.9" true = ([], .error (.nameError "os")) ∧
    load_env [] ["# only comments", ""] = .ok [] :=
  ⟨rfl, rfl, rfl⟩

/-- Witness for C1: a parsed configuration with no `networks` key and a
healthy Docker world. -/
theorem deploy_missing_networks_key_exits_nonzero_witness :
    (DeployConfig.mk none).networks = none ∧
    ((DeployNetworks.main ⟨none⟩ ⟨some [], fun _ _ _ => true⟩).1 =
        DeployOutcome.raised
          (.typeError "print() got an unexpected keyword argument err") [] ∧
     (DeployNetworks.main ⟨none⟩ ⟨some [], fun _ _ _ => true⟩).1.exitStatus = 1 ∧
     (DeployNetworks.main ⟨none⟩ ⟨some [], fun _ _ _ => true⟩).2 = []) :=
  ⟨rfl, deploy_missing_networks_key_exits_nonzero ⟨none⟩ ⟨some [], fun _ _ _ => true⟩ rfl⟩

/-- Witness for C3: two declared networks, one colliding with the existing
network `edge`, one new. -/
theorem deploy_delete_iff_existing_witness :
    (∀ e ∈ [NetworkEntry.mk (some "edge") (some "bridge") (some false),
            NetworkEntry.mk (some "web") none none], e.name ≠ none) ∧
    (DeployNetworks.main
        ⟨some [⟨some "edge", some "bridge", some false⟩, ⟨some "web", none, none⟩]⟩
        ⟨some ["edge"], fun _ _ _ => true⟩).2 =
      lsCmd :: [NetworkEntry.mk (some "edge") (some "bridge") (some false),
                NetworkEntry.mk (some "web") none none].flatMap (fun e =>
        (if namedOf e ∈
            (DeployNetworks.get_existing_networks ⟨some ["edge"], fun _ _ _ => true⟩).2
         then [rmCmd (namedOf e)] else [])
        ++ [createArgv (namedOf e) (entryDriver e) (entryAttachable e)]) :=
  ⟨by decide, deploy_delete_iff_existing _ _ _ rfl (by decide)⟩

/-- Witness for C4: one declared network whose create fails. -/
theorem deploy_failed_create_reports_failed_exit_zero_witness :
    0 < [NetworkEntry.mk (some "edge") none none].length ∧
    (DeployNetworks.create_docker_network ⟨some [], fun _ _ _ => false⟩
        (namedOf ⟨some "edge", none, none⟩) (entryDriver ⟨some "edge", none, none⟩)
        (entryAttachable ⟨some "edge", none, none⟩)).2 = false ∧
    ∃ rows, (DeployNetworks.main ⟨some [⟨some "edge", none, none⟩]⟩
        ⟨some [], fun _ _ _ => false⟩).1 = DeployOutcome.exited 0 rows ∧
      rows.length = [NetworkEntry.mk (some "edge") none none].length ∧
      rows[0]? = some (expectedRow ⟨some [], fun _ _ _ => false⟩ ⟨some "edge", none, none⟩) ∧
      (expectedRow ⟨some [], fun _ _ _ => false⟩ ⟨some "edge", none, none⟩).status = "Failed" :=
  ⟨by decide, rfl,
   deploy_failed_create_reports_failed_exit_zero _ _ _ 0 rfl (by decide) (by decide) rfl⟩

/-- Witness for C7: an entry with a name but neither a `driver` nor an
`attachable` key, colliding with the existing network `edge`. -/
theorem deploy_defaults_overlay_attachable_witness :
    (NetworkEntry.mk (some "edge") none none).name = some "edge" ∧
    (entryDriver ⟨some "edge", none, none⟩ = "overlay" ∧
     entryAttachable ⟨some "edge", none, none⟩ = true ∧
     DeployNetworks.processEntry ⟨some [], fun _ _ _ => true⟩ ["edge"]
        ⟨some "edge", none, none⟩ =
      ((if "edge" ∈ ["edge"] then [rmCmd "edge"] else []) ++
        [["docker", "network", "create", "--scope", "swarm", "edge",
          "--driver", "overlay", "--attachable"]],
       .ok ⟨"edge",
            if (⟨some [], fun _ _ _ => true⟩ : DockerWorld).createOk "edge" "overlay" true
            then "Created" else "Failed",
            "overlay", "Yes"⟩)) :=
  ⟨rfl, deploy_defaults_overlay_attachable _ _ _ _ rfl rfl rfl⟩

/-- Witness for C8: the `ls` query fails; the single declared network goes
straight to its create. -/
theorem deploy_ls_failure_treated_empty_witness :
    (⟨none, fun _ _ _ => true⟩ : DockerWorld).lsResult = none ∧
    (DeployNetworks.get_existing_networks ⟨none, fun _ _ _ => true⟩ =
      (["Error retrieving existing networks"], []) ∧
     (DeployNetworks.main ⟨some [⟨some "edge", none, none⟩]⟩
        ⟨none, fun _ _ _ => true⟩).2 =
      lsCmd :: [NetworkEntry.mk (some "edge") none none].flatMap (fun e =>
        [createArgv (namedOf e) (entryDriver e) (entryAttachable e)])) :=
  ⟨rfl, deploy_ls_failure_treated_empty _ _ _ rfl rfl (by decide)⟩

/-- Witness for C10: a named entry, then an entry with no `name` key, then a
further named entry that is never reached. -/
theorem deploy_missing_name_aborts_batch_witness :
    (NetworkEntry.mk none none none).name = none ∧
    DeployNetworks.main
        ⟨some ([⟨some "edge", none, none⟩] ++
          (⟨none, none, none⟩ : NetworkEntry) :: [⟨some "web", none, none⟩])⟩
        ⟨some ["edge"], fun _ _ _ => true⟩ =
      (DeployOutcome.raised
        (.typeError "expected str, bytes or os.PathLike object, not NoneType")
        ([NetworkEntry.mk (some "edge") none none].map
          (expectedRow ⟨some ["edge"], fun _ _ _ => true⟩)),
       lsCmd :: [NetworkEntry.mk (some "edge") none none].flatMap
         (expectedTrace
           (DeployNetworks.get_existing_networks ⟨some ["edge"], fun _ _ _ => true⟩).2)) :=
  ⟨rfl, deploy_missing_name_aborts_batch _ _ _ _ rfl (by decide)⟩

/-- Witness for C5: the spec's example values. -/
theorem join_command_formats_manager_address_witness :
    ("10.0.0.5" : String) ≠ "" ∧ ("SWMTKN-1-abc" : String) ≠ "" ∧
    (JoinCfg.add_worker true "10.0.0.5" "SWMTKN-1-abc" =
      ([["docker", "swarm", "join", "--token=" ++ "SWMTKN-1-abc",
         "10.0.0.5" ++ ":2377"]], .ok ()) ∧
     JoinEnv.add_worker true "10.0.0.5" "SWMTKN-1-abc" "10.0.0.9" =
      ([["docker", "swarm", "join", "--token=" ++ "SWMTKN-1-abc",
         "10.0.0.5" ++ ":2377"]], .ok ())) :=
  ⟨by decide, by decide,
   join_command_formats_manager_address "10.0.0.5" "SWMTKN-1-abc" "10.0.0.9"
     (by decide) (by decide) (by decide)⟩

/-- Witness for C6: an empty manager IP with a well-formed token. -/
theorem join_empty_values_fail_before_command_witness :
    (("" : String) = "" ∨ ("SWMTKN-1-abc" : String) = "") ∧
    (((JoinCfg.add_worker true "" "SWMTKN-1-abc").1 = [] ∧
      ∃ m, (JoinCfg.add_worker true "" "SWMTKN-1-abc").2 =
        Except.error (.valueError m)) ∧
     ((JoinEnv.add_worker true "" "SWMTKN-1-abc" "10.0.0.9").1 = [] ∧
      ∃ m, (JoinEnv.add_worker true "" "SWMTKN-1-abc" "10.0.0.9").2 =
        Except.error (.valueError m))) :=
  ⟨Or.inl rfl,
   join_empty_values_fail_before_command "" "SWMTKN-1-abc" "10.0.0.9" true (Or.inl rfl)⟩

